import Mathlib

/-!
Shallow embedding of `src/msg.py` (Instagram DM auto sender).

Strings are modelled as lists of Unicode codepoints (`List Nat`).  The
embedding covers:
  * `parse_messages` — the dual-mode corpus parser (structured JSON-lines
    mode and bulk split mode, lines 34-97);
  * the startup corpus handling of `main` (lines 307-350);
  * the tab-count clamp of `main` (line 273);
  * `sender_loop` — one loop iteration of the per-tab sender state machine
    (lines 181-253), with the Playwright page, clock and outcome of each
    fallible operation abstracted into an environment record.
-/

/-- Codepoints of a Lean string literal, used to write concrete inputs. -/
def s2l (s : String) : List Nat := s.toList.map Char.toNat

/-- Python whitespace, as matched by `str.strip()` and by `\s` in `re`
(unicode mode): ASCII whitespace, the C1 separators, and the Unicode
space characters. -/
def pySpace (c : Nat) : Bool :=
  (9 ≤ c && c ≤ 13) || (28 ≤ c && c ≤ 31) || c == 32 || c == 0x85 ||
  c == 0xA0 || c == 0x1680 || (0x2000 ≤ c && c ≤ 0x200A) || c == 0x2028 ||
  c == 0x2029 || c == 0x202F || c == 0x205F || c == 0x3000

/-- Codepoint mapping of Python NFKC normalization on the
codepoints this development distinguishes.  Per the Unicode character
database: U+FE60 SMALL AMPERSAND and U+FF06 FULLWIDTH AMPERSAND carry
compatibility decompositions to U+0026, U+FE14 PRESENTATION FORM FOR
VERTICAL SEMICOLON decomposes to U+003B, and U+00A0 NO-BREAK SPACE
decomposes to U+0020.  NFKC is the identity on ASCII and on every other
codepoint appearing in this file (in particular U+214B TURNED AMPERSAND,
U+A4F8 LISU LETTER TONE MYA TI and the zero-width characters
U+200B-U+200F, U+202A-U+202E, U+2060-U+206F, U+FEFF carry no
decomposition), and no input used here contains combining sequences. -/
def nfkcChar (c : Nat) : Nat :=
  if c = 0xFE60 then 0x26
  else if c = 0xFF06 then 0x26
  else if c = 0xFE14 then 0x3B
  else if c = 0xA0 then 0x20
  else c

/-- NFKC normalization of a whole string (msg.py lines 66 and 86). -/
def nfkc (s : List Nat) : List Nat := s.map nfkcChar

/-- Newline canonicalization (msg.py line 87): every CRLF pair becomes
LF, then every remaining CR becomes LF. -/
def fixCRLF : List Nat → List Nat
  | [] => []
  | 13 :: 10 :: rest => 10 :: fixCRLF rest
  | 13 :: rest => 10 :: fixCRLF rest
  | c :: rest => c :: fixCRLF rest

/-- The character class of the zero-width removal regex of msg.py lines
67 and 88: U+200B to U+200F, U+FEFF, U+202A to U+202E, U+2060 to
U+206F. -/
def zeroWidth (c : Nat) : Bool :=
  (0x200B ≤ c && c ≤ 0x200F) || c == 0xFEFF ||
  (0x202A ≤ c && c ≤ 0x202E) || (0x2060 ≤ c && c ≤ 0x206F)

/-- Remove zero-width and bidi-format characters (msg.py lines 67 and 88). -/
def stripZW (s : List Nat) : List Nat := s.filter (fun c => !(zeroWidth c))

/-- The five sequential single-character replace calls of msg.py lines
91-92, which map U+FE60, U+FF06, U+214B, U+A4F8 and U+FE14 to `&`.  The
sources are pairwise distinct and none maps to another source, so the
sequential replaces equal one simultaneous character map. -/
def confuseAmpChar (c : Nat) : Nat :=
  if c = 0xFE60 || c = 0xFF06 || c = 0x214B || c = 0xA4F8 || c = 0xFE14
  then 0x26 else c

/-- The replacement chain of msg.py lines 91-92 as one map. -/
def confuseAmp (s : List Nat) : List Nat := s.map confuseAmpChar

/-- Python strip: drop Python whitespace from both ends. -/
def pyStrip (s : List Nat) : List Nat :=
  ((s.dropWhile pySpace).reverse.dropWhile pySpace).reverse

/-- Case-insensitive letter tests for the alternate keyword `and`
(`re.IGNORECASE`; the three letters have only their ASCII case pair). -/
def isA (c : Nat) : Bool := c == 0x61 || c == 0x41

/-- See `isA`. -/
def isN (c : Nat) : Bool := c == 0x6E || c == 0x4E

/-- See `isA`. -/
def isD (c : Nat) : Bool := c == 0x64 || c == 0x44

/-- One anchored match of the separator regex `\s*(?:&|and)\s*`
(msg.py line 95) at the head of `s`: skip the (maximal) whitespace run,
require `&` or `and`/`AND`/... (no word-boundary check), then consume the
trailing whitespace run; return the remainder.  Backtracking the leading
`\s*` cannot create other matches at the same start because the skipped
characters are whitespace, which can begin neither alternative. -/
def matchSep (s : List Nat) : Option (List Nat) :=
  match s.dropWhile pySpace with
  | 0x26 :: r => some (r.dropWhile pySpace)
  | a :: n :: d :: r =>
      if isA a && isN n && isD d then some (r.dropWhile pySpace) else none
  | _ => none

/-- Worker for `re.split`: scan left to right; at the first position where
the separator matches, emit the accumulated piece and continue after the
match.  `fuel` bounds the recursion; every match consumes at least one
character, so `fuel = s.length` never runs out (the fuel-exhausted
fallback closes the current piece with the rest of the input). -/
def splitSepAux : Nat → List Nat → List Nat → List (List Nat)
  | 0, acc, s => [acc.reverse ++ s]
  | _ + 1, acc, [] => [acc.reverse]
  | fuel + 1, acc, c :: rest =>
      match matchSep (c :: rest) with
      | some r => acc.reverse :: splitSepAux fuel [] r
      | none => splitSepAux fuel (c :: acc) rest

/-- The case-insensitive regex split on the separator pattern
(msg.py line 96). -/
def splitSep (s : List Nat) : List (List Nat) := splitSepAux s.length [] s

/-- The bulk-mode normalization pipeline of msg.py lines 86-92, in source
order: NFKC, newline canonicalization, zero-width stripping, confusable
ampersand replacement. -/
def bulkNormalize (content : List Nat) : List Nat :=
  confuseAmp (stripZW (fixCRLF (nfkc content)))

/-- Bulk mode (msg.py lines 86-97): normalize, split on the separator
regex, strip each piece, and discard pieces that are empty after
stripping. -/
def bulkParse (content : List Nat) : List (List Nat) :=
  ((splitSep (bulkNormalize content)).map pyStrip).filter (fun p => !p.isEmpty)

/-- Whitespace skipped by `json.loads` around a JSON value. -/
def jsonWS (c : Nat) : Bool := c == 0x20 || c == 0x09 || c == 0x0A || c == 0x0D

/-- Value of one hex digit. -/
def hexVal (c : Nat) : Option Nat :=
  if 0x30 ≤ c && c ≤ 0x39 then some (c - 0x30)
  else if 0x61 ≤ c && c ≤ 0x66 then some (c - 0x61 + 10)
  else if 0x41 ≤ c && c ≤ 0x46 then some (c - 0x41 + 10)
  else none

/-- Value of a four-digit hex escape. -/
def hex4 (h1 h2 h3 h4 : Nat) : Option Nat :=
  match hexVal h1, hexVal h2, hexVal h3, hexVal h4 with
  | some a, some b, some c, some d => some (((a * 16 + b) * 16 + c) * 16 + d)
  | _, _, _, _ => none

/-- The single-character escapes of a JSON string literal. -/
def escChar (c : Nat) : Option Nat :=
  if c = 0x22 then some 0x22
  else if c = 0x5C then some 0x5C
  else if c = 0x2F then some 0x2F
  else if c = 0x62 then some 8
  else if c = 0x66 then some 12
  else if c = 0x6E then some 10
  else if c = 0x72 then some 13
  else if c = 0x74 then some 9
  else none

/-- Prepend a decoded character to the result of decoding the rest. -/
def consDec (c : Nat) : Option (List Nat × List Nat) → Option (List Nat × List Nat)
  | some (s, r) => some (c :: s, r)
  | none => none

/-- Decode the body of a JSON string literal after the opening quote, as
`json.loads` does (strict mode): plain characters must not be control
characters; escapes are the single-character ones plus `\uXXXX`, where a
high surrogate followed by a `\uYYYY` low surrogate combines into one
codepoint and an unpaired surrogate is kept as is.  Returns the decoded
codepoints and the input remaining after the closing quote.  Every
recursive call consumes at least one input character, so `fuel` equal to
the input length never runs out. -/
def decodeBody : Nat → List Nat → Option (List Nat × List Nat)
  | 0, _ => none
  | _ + 1, [] => none
  | _ + 1, 0x22 :: rest => some ([], rest)
  | fuel + 1, 0x5C :: 0x75 :: h1 :: h2 :: h3 :: h4 :: rest =>
      (match hex4 h1 h2 h3 h4 with
       | none => none
       | some u =>
         if 0xD800 ≤ u && u ≤ 0xDBFF then
           match rest with
           | 0x5C :: 0x75 :: g1 :: g2 :: g3 :: g4 :: rest2 =>
               (match hex4 g1 g2 g3 g4 with
                | some v =>
                  if 0xDC00 ≤ v && v ≤ 0xDFFF then
                    consDec (0x10000 + (u - 0xD800) * 0x400 + (v - 0xDC00))
                      (decodeBody fuel rest2)
                  else consDec u (decodeBody fuel rest)
                | none => consDec u (decodeBody fuel rest))
           | _ => consDec u (decodeBody fuel rest)
         else consDec u (decodeBody fuel rest))
  | fuel + 1, 0x5C :: e :: rest =>
      (match escChar e with
       | some c => consDec c (decodeBody fuel rest)
       | none => none)
  | _ + 1, [0x5C] => none
  | fuel + 1, c :: rest => if c < 0x20 then none else consDec c (decodeBody fuel rest)

/-- Success of `json.loads` on one line with a string result (msg.py
line 57, together with the string-type check of line 58): optional
whitespace, one string literal, optional whitespace, end of input. -/
def decodeJsonString (line : List Nat) : Option (List Nat) :=
  match line.dropWhile jsonWS with
  | 0x22 :: rest =>
      match decodeBody (rest.length + 1) rest with
      | some (s, r) => if (r.dropWhile jsonWS).isEmpty then some s else none
      | none => none
  | _ => none

/-- Split file text into lines as Python file iteration does, each line
keeping its trailing newline (the text is already in universal-newline
form, see `FS.readFile`). -/
def splitLinesAux : List Nat → List Nat → List (List Nat)
  | acc, [] => if acc.isEmpty then [] else [acc.reverse]
  | acc, c :: rest =>
      if c = 10 then (10 :: acc).reverse :: splitLinesAux [] rest
      else splitLinesAux (c :: acc) rest

/-- See `splitLinesAux`. -/
def splitLines (content : List Nat) : List (List Nat) := splitLinesAux [] content

/-- A line Python treats as blank: `ln.strip()` is empty. -/
def pyBlank (line : List Nat) : Bool := line.all pySpace

/-- Remove the trailing newline characters of one line (msg.py line 54). -/
def rstripNL (line : List Nat) : List Nat :=
  (line.reverse.dropWhile (· == 10)).reverse

/-- The non-blank lines of the file text, each without its trailing
newline (msg.py line 54). -/
def structuredLines (content : List Nat) : List (List Nat) :=
  ((splitLines content).filter (fun l => !(pyBlank l))).map rstripNL

/-- Decode every line, failing if any line fails (the first `json.loads`
failure or non-string value raises and aborts the whole structured
attempt, msg.py lines 55-61 and 70-72). -/
def decodeAll (lines : List (List Nat)) : Option (List (List Nat)) :=
  lines.mapM decodeJsonString

/-- The per-message normalization of structured mode (msg.py lines 64-68):
NFKC, then removal of zero-width and bidi-format characters. -/
def normMsg (m : List Nat) : List Nat := stripZW (nfkc m)

/-- The structured-mode attempt of msg.py lines 50-72: if every non-blank
line decodes as a JSON string and at least one message results
(`if msgs:`), return the normalized messages; otherwise fall back. -/
def structuredAttempt (content : List Nat) : Option (List (List Nat)) :=
  match decodeAll (structuredLines content) with
  | none => none
  | some [] => none
  | some ms => some (ms.map normMsg)

/-- The filesystem as `parse_messages` sees it.  `readFile` returns the
text of a file opened in UTF-8 text mode, after the Python
universal-newline translation (so line breaks appear as `\n`), or `none`
when opening or reading raises. -/
structure FS where
  pathExists : List Nat → Bool
  readFile : List Nat → Option (List Nat)

/-- The error raised by `parse_messages` when the corpus file cannot be
read (msg.py line 78). -/
inductive ParseError
  | readFailure (name : List Nat)
deriving DecidableEq

instance : DecidableEq (Except ParseError (List (List Nat))) := fun a b =>
  match a, b with
  | Except.error e1, Except.error e2 =>
      if h : e1 = e2 then isTrue (by rw [h]) else isFalse (by simp [h])
  | Except.ok v1, Except.ok v2 =>
      if h : v1 = v2 then isTrue (by rw [h]) else isFalse (by simp [h])
  | Except.error _, Except.ok _ => isFalse (by simp)
  | Except.ok _, Except.error _ => isFalse (by simp)

/-- The dual-mode parser, `parse_messages` of msg.py lines 34-97.  The
descriptor enters
structured mode only when it ends in `.txt` and names an existing path
(line 47).  An open failure inside the structured attempt is swallowed by
the `except` of line 70, and the bulk re-read of lines 74-78 then raises;
both reads are of the same file, modelled by one `readFile` lookup.
A descriptor that is not such a file is bulk-parsed directly (line 80). -/
def parse_messages (fs : FS) (names_arg : List Nat) :
    Except ParseError (List (List Nat)) :=
  if List.isSuffixOf (s2l ".txt") names_arg && fs.pathExists names_arg then
    match fs.readFile names_arg with
    | none => Except.error (ParseError.readFailure names_arg)
    | some content =>
        match structuredAttempt content with
        | some msgs => Except.ok msgs
        | none => Except.ok (bulkParse content)
  else
    Except.ok (bulkParse names_arg)

/-- Outcome of the corpus-handling prefix of `main` (msg.py lines
307-350): a raised parse error exits, an empty parse result exits
(`if not messages`), otherwise the agents are started with the corpus. -/
inductive StartupOutcome
  | parseErrorExit
  | emptyCorpusExit
  | proceed (msgs : List (List Nat))
deriving DecidableEq

/-- See `StartupOutcome`. -/
def startupCorpus (fs : FS) (names_arg : List Nat) : StartupOutcome :=
  match parse_messages fs names_arg with
  | Except.error _ => StartupOutcome.parseErrorExit
  | Except.ok [] => StartupOutcome.emptyCorpusExit
  | Except.ok ms => StartupOutcome.proceed ms

/-- The tab-count clamp of msg.py line 273: the minimum of 5 and the
maximum of the request and 1. -/
def tabsClamp (k : Int) : Int := min (max k 1) 5

/-- A filesystem with no readable files: any non-file descriptor is
parsed as inline text against it. -/
def fsNone : FS where
  pathExists := fun _ => false
  readFile := fun _ => none

/-- The environment of one `sender_loop` iteration (msg.py lines
200-253): how much the wall clock advanced since the previous iteration
made its `time.time() - cycle_start` reading, and the outcome of each fallible
Playwright operation of this iteration. -/
structure Env where
  dt : Nat
  preloadOk : Bool
  visible : Bool
  sendOk : Bool
deriving DecidableEq

/-- The mutable state of one `sender_loop` agent: the identity of
`current_page`, a fresh-identity source for `context.new_page()`, the
elapsed time `time.time() - cycle_start` as of the last reading, and the
`new_page`, `preloaded_this_cycle` and `msg_index` variables. -/
structure AgentState where
  currentPage : Nat
  nextPageId : Nat
  clock : Nat
  newPage : Option Nat
  preloadedThisCycle : Bool
  msgIndex : Nat
deriving DecidableEq

/-- What one iteration did, for stating the claims. -/
inductive Event
  | rotated (page : Nat)
  | reloaded
  | skipped (idx : Nat)
  | sent (idx : Nat) (payload : List Nat)
  | sendFailed (idx : Nat)
deriving DecidableEq

/-- The payload handed to `current_page.fill(dm_selector, msg)` (msg.py
line 245): the message itself, unchanged. -/
def fillPayload (msg : List Nat) : List Nat := msg

/-- The preload phase of an iteration (msg.py lines 222-231): at 50
elapsed units, once per cycle, try to open and navigate a fresh page;
on success it becomes `new_page`, on failure `new_page` stays `None`.
`preloaded_this_cycle` is set before the attempt.  The stored clock
becomes the elapsed reading of this iteration in every branch. -/
def preloadPhase (e : Env) (elapsed : Nat) (s : AgentState) : AgentState :=
  if 50 ≤ elapsed && !s.preloadedThisCycle then
    if e.preloadOk then
      { s with clock := elapsed, preloadedThisCycle := true,
               newPage := some s.nextPageId,
               nextPageId := s.nextPageId + 1 }
    else
      { s with clock := elapsed, preloadedThisCycle := true,
               newPage := none }
  else { s with clock := elapsed }

/-- One iteration of the `while True` loop of `sender_loop` (msg.py lines
200-253).  In order: if the cycle deadline (60 units) has elapsed either
promote the preloaded page or re-navigate the current page in place (a
re-navigation error is caught and changes nothing), reset the cycle clock
and clear the preload state, and `continue`; otherwise, at 50 units
attempt the preload once per cycle (failure leaves `new_page` at `None`);
then send `messages[msg_index]`: skip if the textbox is not visible, and
otherwise fill and submit, with any exception caught.  On skip, success
and failure alike, `msg_index` advances by one modulo `len(messages)`
(lines 240 and 253). -/
def step (msgs : List (List Nat)) (e : Env) (s : AgentState) :
    AgentState × Event :=
  let elapsed := s.clock + e.dt
  if 60 ≤ elapsed then
    match s.newPage with
    | some p =>
        ({ s with currentPage := p, clock := 0, newPage := none,
                  preloadedThisCycle := false }, Event.rotated p)
    | none =>
        ({ s with clock := 0, newPage := none,
                  preloadedThisCycle := false }, Event.reloaded)
  else
    let s1 := preloadPhase e elapsed s
    if !e.visible then
      ({ s1 with msgIndex := (s1.msgIndex + 1) % msgs.length },
       Event.skipped s1.msgIndex)
    else if e.sendOk then
      ({ s1 with msgIndex := (s1.msgIndex + 1) % msgs.length },
       Event.sent s1.msgIndex (fillPayload (msgs.getD s1.msgIndex [])))
    else
      ({ s1 with msgIndex := (s1.msgIndex + 1) % msgs.length },
       Event.sendFailed s1.msgIndex)

/-- The agent state on entering the loop (msg.py lines 194-198):
the initial page, a zero cycle clock, no preloaded page, cursor 0. -/
def initialState : AgentState where
  currentPage := 0
  nextPageId := 1
  clock := 0
  newPage := none
  preloadedThisCycle := false
  msgIndex := 0

/-- Run the loop through a list of per-iteration environments. -/
def run (msgs : List (List Nat)) (envs : List Env) (s : AgentState) :
    AgentState :=
  envs.foldl (fun st e0 => (step msgs e0 st).1) s

/-- A three-message demo corpus. -/
def msgsDemo : List (List Nat) := [s2l "a", s2l "b", s2l "c"]

/-- An iteration in which the textbox is visible but the submission
raises (the `except` branch of msg.py lines 249-251). -/
def envFail : Env where
  dt := 1
  preloadOk := false
  visible := true
  sendOk := false

/-- An iteration in which the submission succeeds. -/
def envOk : Env where
  dt := 1
  preloadOk := false
  visible := true
  sendOk := true

/-- Contents of a structured-mode demo file: the single JSON line
quote backslash-u 200b X quote, whose decoded string starts with a
zero-width space. -/
def zwContent : List Nat := s2l "\"\\u200bX\""

/-- A filesystem holding the structured demo file `m.txt`. -/
def fsZW : FS where
  pathExists := fun d => d == s2l "m.txt"
  readFile := fun d => if d == s2l "m.txt" then some zwContent else none

/-- Contents of a two-line structured-mode demo file. -/
def twoLineContent : List Nat := s2l "\"A\"\n\"B C\"\n"

/-- A filesystem holding the two-line structured demo file `m2.txt`. -/
def fsTwoLine : FS where
  pathExists := fun d => d == s2l "m2.txt"
  readFile := fun d => if d == s2l "m2.txt" then some twoLineContent else none

/-- A filesystem on which every path exists and is readable, with fixed
contents `X & Y`. -/
def fsAll : FS where
  pathExists := fun _ => true
  readFile := fun _ => some (s2l "X & Y")

/-- An unreadable `.txt` file: the path exists but opening it raises. -/
def fsUnreadable : FS where
  pathExists := fun d => d == s2l "u.txt"
  readFile := fun _ => none

/-- Whether `parse_messages` raised. -/
def isErr : Except ParseError (List (List Nat)) → Bool
  | Except.error _ => true
  | Except.ok _ => false

/-- Whether a codepoint list contains two adjacent ordinary (collapsible)
spaces. -/
def hasDoubleSpace (l : List Nat) : Bool :=
  (l.zip l.tail).any (fun p => p.1 == 32 && p.2 == 32)

/-- A one-message corpus whose message contains a run of two spaces. -/
def msgsSpaces : List (List Nat) := [s2l "a  b"]

/-- A two-message corpus. -/
def msgsTwo : List (List Nat) := [s2l "a", s2l "b"]

/-- A state whose cursor sits on the last index of `msgsTwo`. -/
def sLast : AgentState where
  currentPage := 0
  nextPageId := 1
  clock := 0
  newPage := none
  preloadedThisCycle := false
  msgIndex := 1

/-- A state at 59 elapsed units with no shadow page. -/
def sRot : AgentState where
  currentPage := 7
  nextPageId := 3
  clock := 59
  newPage := none
  preloadedThisCycle := true
  msgIndex := 2

/-- An iteration whose clock advance crosses the 60-unit deadline. -/
def envRot : Env where
  dt := 2
  preloadOk := false
  visible := true
  sendOk := true

theorem preloadPhase_msgIndex (e : Env) (t : Nat) (s : AgentState) :
    (preloadPhase e t s).msgIndex = s.msgIndex := by
  unfold preloadPhase
  split
  · split <;> rfl
  · rfl

theorem step_msgIndex (msgs : List (List Nat)) (e : Env) (s : AgentState) :
    (step msgs e s).1.msgIndex =
      if 60 ≤ s.clock + e.dt then s.msgIndex
      else (s.msgIndex + 1) % msgs.length := by
  unfold step
  by_cases h : 60 ≤ s.clock + e.dt
  · rw [if_pos h, if_pos h]
    cases s.newPage <;> rfl
  · rw [if_neg h, if_neg h]
    cases hv : e.visible <;> cases ho : e.sendOk <;>
      simp [preloadPhase_msgIndex]

theorem run_msgIndex_lt (msgs : List (List Nat)) (hN : 0 < msgs.length) :
    ∀ (envs : List Env) (s : AgentState), s.msgIndex < msgs.length →
      (run msgs envs s).msgIndex < msgs.length := by
  intro envs
  induction envs with
  | nil => intro s h; simpa [run] using h
  | cons e0 es ih =>
      intro s h
      have h2 : (step msgs e0 s).1.msgIndex < msgs.length := by
        rw [step_msgIndex]
        split
        · exact h
        · exact Nat.mod_lt _ hN
      simpa [run] using ih _ h2

/-- Claim C1 (counterexample): in `sender_loop`, a failed send does
advance the cursor.  With a visible textbox and a raising submission, one
iteration from the initial state produces a send-failure event for index
0 and leaves the cursor at 1, so the cursor is not advanced only on skip
or success. -/
theorem sendFailureAdvancesCursorCex :
    (step msgsDemo envFail initialState).2 = Event.sendFailed 0 ∧
    (step msgsDemo envFail initialState).1.msgIndex = 1 := by decide

/-- Claim C1 (amended): a send failure does not terminate the agent — the
exception is caught and the loop continues — but the cursor advances on a
failed send exactly as on a skip or a success, by one modulo the corpus
length (msg.py line 253), so the failed index is not retried until the
next lap.  The closing conjunct shows a failure followed by a success:
the following iteration sends the message at the next index. -/
theorem sendFailureAdvancesCursor (msgs : List (List Nat)) (e : Env)
    (s : AgentState) (hV : e.visible = true) (hF : e.sendOk = false)
    (hT : s.clock + e.dt < 60) :
    (step msgs e s).2 = Event.sendFailed s.msgIndex ∧
    (step msgs e s).1.msgIndex = (s.msgIndex + 1) % msgs.length ∧
    (step msgsDemo envOk ((step msgsDemo envFail initialState).1)).2
      = Event.sent 1 (s2l "b") := by
  refine ⟨?_, ?_, by decide⟩
  · unfold step
    rw [if_neg (by omega)]
    simp only [hV, hF, Bool.not_true, Bool.false_eq_true, if_false]
    exact congrArg Event.sendFailed (preloadPhase_msgIndex e _ s)
  · rw [step_msgIndex, if_neg (by omega)]

/-- Claim C1 (witness). -/
theorem sendFailureAdvancesCursorWitness :
    envFail.visible = true ∧ envFail.sendOk = false ∧
    initialState.clock + envFail.dt < 60 ∧
    (step msgsDemo envFail initialState).2
      = Event.sendFailed initialState.msgIndex :=
  ⟨by decide, by decide, by decide,
    (sendFailureAdvancesCursor msgsDemo envFail initialState
      (by decide) (by decide) (by decide)).1⟩

/-- Claim C2 (counterexample): structured mode is not a verbatim
round-trip.  The file `m.txt` holds one JSON line encoding ZWSP-then-X,
which decodes to a string starting with a zero-width space, yet the
parser returns just `X`: the decoded string is NFKC-normalized and
stripped of zero-width characters (msg.py lines 64-68). -/
theorem structuredModeNormalizesCex :
    decodeJsonString zwContent = some (0x200B :: s2l "X") ∧
    parse_messages fsZW (s2l "m.txt") = Except.ok [s2l "X"] ∧
    (0x200B :: s2l "X") ≠ s2l "X" := by decide

/-- Claim C2 (amended): for an existing `.txt` file whose every non-blank
line decodes as a JSON string literal, the parser returns one message per
line in file order, each message being the decoded string after NFKC
normalization and removal of zero-width and bidi-format characters
(verbatim only when the decoded string contains no character affected by
either). -/
theorem structuredModeNormalizes (fs : FS) (d content : List Nat)
    (ms : List (List Nat))
    (hTxt : List.isSuffixOf (s2l ".txt") d = true)
    (hEx : fs.pathExists d = true)
    (hRead : fs.readFile d = some content)
    (hDec : decodeAll (structuredLines content) = some ms)
    (hNe : ms ≠ []) :
    parse_messages fs d = Except.ok (ms.map normMsg) := by
  cases ms with
  | nil => exact absurd rfl hNe
  | cons m rest =>
      simp only [parse_messages, hTxt, hEx, Bool.and_self, if_true, hRead,
        structuredAttempt, hDec]

/-- Claim C2 (witness). -/
theorem structuredModeNormalizesWitness :
    decodeAll (structuredLines twoLineContent)
      = some [s2l "A", s2l "B C"] ∧
    parse_messages fsTwoLine (s2l "m2.txt")
      = Except.ok ([s2l "A", s2l "B C"].map normMsg) :=
  ⟨by decide,
    structuredModeNormalizes fsTwoLine (s2l "m2.txt") twoLineContent
      [s2l "A", s2l "B C"] (by decide) (by decide) (by decide) (by decide)
      (by decide)⟩

/-- Claim C3 (counterexample): the alternate keyword is not matched as a
whole word.  `sand` contains `and` only inside a longer word, yet bulk
mode splits it, yielding `["s"]`; likewise `spyther1andspyther2` splits
into two messages (exactly as the comment on msg.py line 94 says). -/
theorem andSubstringCex :
    parse_messages fsNone (s2l "sand") = Except.ok [s2l "s"] ∧
    parse_messages fsNone (s2l "spyther1andspyther2")
      = Except.ok [s2l "spyther1", s2l "spyther2"] := by decide

/-- Claim C3 (amended): the separator regex `\s*(?:&|and)\s*` matches
`and` (case-insensitively) as a bare substring: whenever the three
letters appear, a separator match begins there regardless of what
follows or precedes, so the keyword splits even inside longer words. -/
theorem andSubstringSplits (a n d : Nat) (r : List Nat)
    (ha : isA a = true) (hn : isN n = true) (hd : isD d = true) :
    matchSep (a :: n :: d :: r) = some (r.dropWhile pySpace) ∧
    parse_messages fsNone (s2l "sandwich")
      = Except.ok [s2l "s", s2l "wich"] := by
  refine ⟨?_, by decide⟩
  simp only [isA, isN, isD, Bool.or_eq_true, beq_iff_eq] at ha hn hd
  rcases ha with rfl | rfl <;> rcases hn with rfl | rfl <;>
    rcases hd with rfl | rfl <;> rfl

/-- Claim C3 (witness). -/
theorem andSubstringSplitsWitness :
    isA 97 = true ∧ isN 78 = true ∧ isD 100 = true ∧
    matchSep (97 :: 78 :: 100 :: s2l " x")
      = some ((s2l " x").dropWhile pySpace) :=
  ⟨by decide, by decide, by decide,
    (andSubstringSplits 97 78 100 (s2l " x")
      (by decide) (by decide) (by decide)).1⟩

/-- Claim C4: for a corpus of length `N ≥ 1`, the cursor stays in
`[0, N)` at every iteration of the loop — from the initial state, and
preserved by every single step — and the advance is modulo `N`: from
index `N - 1`, a successful send wraps the cursor to 0. -/
theorem cursorInvariant (msgs : List (List Nat)) (envs : List Env)
    (e : Env) (s : AgentState) (hN : 0 < msgs.length) :
    (run msgs envs initialState).msgIndex < msgs.length ∧
    (s.msgIndex < msgs.length →
      (step msgs e s).1.msgIndex < msgs.length) ∧
    (s.msgIndex = msgs.length - 1 → s.clock + e.dt < 60 →
      e.visible = true → e.sendOk = true →
      (step msgs e s).1.msgIndex = 0) := by
  refine ⟨run_msgIndex_lt msgs hN envs initialState hN, ?_, ?_⟩
  · intro h
    rw [step_msgIndex]
    split
    · exact h
    · exact Nat.mod_lt _ hN
  · intro hIdx hT hV hOk
    rw [step_msgIndex, if_neg (by omega), hIdx,
      Nat.sub_add_cancel hN, Nat.mod_self]

/-- Claim C4 (witness). -/
theorem cursorInvariantWitness :
    0 < msgsTwo.length ∧
    (run msgsTwo [envOk] initialState).msgIndex < msgsTwo.length ∧
    (step msgsTwo envOk sLast).1.msgIndex = 0 :=
  ⟨by decide,
    (cursorInvariant msgsTwo [envOk] envOk sLast (by decide)).1,
    (cursorInvariant msgsTwo [envOk] envOk sLast (by decide)).2.2
      (by decide) (by decide) (by decide) (by decide)⟩

/-- Claim C5 (code bug): bulk-mode splitting evaluated on the testable
inputs.  `A & B & C` gives three messages, a block with no delimiter
stays one message with its newline intact, and the ampersand-confusable
glyphs U+FF06, U+FE60, U+214B and U+A4F8 split exactly like `&`.  But
U+FE14, although listed in the replacement chain of msg.py line 92, is
NFKC-normalized to `;` on line 86 before that replacement can fire, so
`A︔B` stays a single message `A;B` instead of splitting. -/
theorem confusableGlyphEval :
    parse_messages fsNone (s2l "A & B & C")
      = Except.ok [s2l "A", s2l "B", s2l "C"] ∧
    parse_messages fsNone (s2l "hello\nworld")
      = Except.ok [s2l "hello\nworld"] ∧
    parse_messages fsNone (s2l "A＆B") = Except.ok [s2l "A", s2l "B"] ∧
    parse_messages fsNone (s2l "A﹠B") = Except.ok [s2l "A", s2l "B"] ∧
    parse_messages fsNone (s2l "A⅋B") = Except.ok [s2l "A", s2l "B"] ∧
    parse_messages fsNone (s2l "AꓸB") = Except.ok [s2l "A", s2l "B"] ∧
    parse_messages fsNone (s2l "A&B") = Except.ok [s2l "A", s2l "B"] ∧
    parse_messages fsNone (s2l "A︔B") = Except.ok [s2l "A;B"] := by
  decide

/-- Claim C6 (counterexample): an empty post-split corpus is not raised.
Parsing the inline descriptor `&` splits to nothing, and the parser
returns the empty list as a normal value (msg.py line 97); `main` then
exits on its separate `if not messages` check (line 330). -/
theorem emptyCorpusOkCex :
    parse_messages fsNone (s2l "&") = Except.ok [] ∧
    startupCorpus fsNone (s2l "&") = StartupOutcome.emptyCorpusExit := by
  decide

/-- Claim C6 (amended): `parse_messages` raises exactly when the
descriptor is a `.txt`-suffixed existing path whose file cannot be read.
An empty post-split corpus is returned normally as `[]`; it is still a
fatal startup condition, because `main` refuses to proceed to spawning
agents on an empty parse result — but via a normal-return check, not a
raised error. -/
theorem parseErrorIff (fs : FS) (d : List Nat) :
    (isErr (parse_messages fs d)
      = (List.isSuffixOf (s2l ".txt") d && fs.pathExists d
          && (fs.readFile d).isNone)) ∧
    (∀ ms, startupCorpus fs d = StartupOutcome.proceed ms → ms ≠ []) := by
  constructor
  · unfold parse_messages
    by_cases h1 : (List.isSuffixOf (s2l ".txt") d && fs.pathExists d) = true
    · rw [if_pos h1, h1]
      cases h3 : fs.readFile d with
      | none => rfl
      | some content =>
          cases h4 : structuredAttempt content <;> simp [isErr, h4]
    · rw [if_neg h1]
      rw [Bool.not_eq_true] at h1
      rw [h1]
      rfl
  · intro ms h
    unfold startupCorpus at h
    cases hp : parse_messages fs d with
    | error e1 => rw [hp] at h; exact absurd h (by simp)
    | ok l =>
        cases l with
        | nil => rw [hp] at h; exact absurd h (by simp)
        | cons m rest =>
            rw [hp] at h
            simp only [StartupOutcome.proceed.injEq] at h
            rw [← h]
            exact List.cons_ne_nil m rest

/-- Claim C6 (witness): an unreadable `.txt` file is the raising case. -/
theorem parseErrorIffWitness :
    isErr (parse_messages fsUnreadable (s2l "u.txt"))
      = (List.isSuffixOf (s2l ".txt") (s2l "u.txt")
          && fsUnreadable.pathExists (s2l "u.txt")
          && (fsUnreadable.readFile (s2l "u.txt")).isNone) :=
  (parseErrorIff fsUnreadable (s2l "u.txt")).1

/-- Claim C7: when the cycle deadline (60 units) elapses with no shadow
page available (`new_page is None`, because the preload failed or never
ran), the iteration re-navigates the existing primary in place: the
current page identity is unchanged, the cycle clock resets to 0, the
shadow state is cleared, and the cursor is untouched — the next send
resumes at the same corpus position, neither skipped nor repeated. -/
theorem reloadAtDeadline (msgs : List (List Nat)) (e : Env)
    (s : AgentState) (hD : 60 ≤ s.clock + e.dt) (hS : s.newPage = none) :
    step msgs e s
      = ({ s with clock := 0, newPage := none,
                  preloadedThisCycle := false }, Event.reloaded) ∧
    (step msgs e s).1.currentPage = s.currentPage ∧
    (step msgs e s).1.msgIndex = s.msgIndex ∧
    (step msgs e s).1.clock = 0 := by
  have h : step msgs e s
      = ({ s with clock := 0, newPage := none,
                  preloadedThisCycle := false }, Event.reloaded) := by
    unfold step
    rw [if_pos hD, hS]
  exact ⟨h, by rw [h], by rw [h], by rw [h]⟩

/-- Claim C7 (witness). -/
theorem reloadAtDeadlineWitness :
    60 ≤ sRot.clock + envRot.dt ∧ sRot.newPage = none ∧
    ((step msgsDemo envRot sRot).1.currentPage = sRot.currentPage ∧
     (step msgsDemo envRot sRot).1.msgIndex = sRot.msgIndex ∧
     (step msgsDemo envRot sRot).1.clock = 0) :=
  ⟨by decide, by decide,
    (reloadAtDeadline msgsDemo envRot sRot (by decide) (by decide)).2⟩

/-- Claim C8: the requested tab count is clamped into `[1, 5]`
(`min(max(args.tabs, 1), 5)`, msg.py line 273): zero or negative
requests yield 1, requests above 5 yield 5, and requests already in
`[1, 5]` are unchanged. -/
theorem tabsClampSpec (k : Int) :
    (k ≤ 0 → tabsClamp k = 1) ∧ (5 < k → tabsClamp k = 5) ∧
    (1 ≤ k → k ≤ 5 → tabsClamp k = k) := by
  unfold tabsClamp
  refine ⟨fun h => ?_, fun h => ?_, fun h1 h2 => ?_⟩ <;> omega

/-- Claim C8 (witness). -/
theorem tabsClampSpecWitness :
    tabsClamp 0 = 1 ∧ tabsClamp (-3) = 1 ∧ tabsClamp 10 = 5 ∧
    tabsClamp 3 = 3 :=
  ⟨(tabsClampSpec 0).1 (by decide), (tabsClampSpec (-3)).1 (by decide),
    (tabsClampSpec 10).2.1 (by decide),
    (tabsClampSpec 3).2.2 (by decide) (by decide)⟩

/-- Claim C9 (counterexample): no space-run replacement happens before
injection.  Sending the message `a  b` emits a fill payload equal to the
message itself, which still contains a run of two ordinary collapsible
spaces — so runs of collapsible spaces are not replaced with
non-collapsing equivalents. -/
theorem fillVerbatimCex :
    (step msgsSpaces envOk initialState).2 = Event.sent 0 (s2l "a  b") ∧
    hasDoubleSpace (s2l "a  b") = true := by decide

/-- Claim C9 (amended): the message is injected verbatim.  `sender_loop`
passes the message to a single `fill` unchanged (msg.py line 245), which
preserves newlines and every other character exactly — including runs of
collapsible spaces, which are not transformed per line or otherwise. -/
theorem fillVerbatim (msgs : List (List Nat)) (e : Env) (s : AgentState)
    (hV : e.visible = true) (hOk : e.sendOk = true)
    (hT : s.clock + e.dt < 60) :
    (step msgs e s).2 = Event.sent s.msgIndex (msgs.getD s.msgIndex []) ∧
    fillPayload (msgs.getD s.msgIndex []) = msgs.getD s.msgIndex [] := by
  refine ⟨?_, rfl⟩
  unfold step
  rw [if_neg (by omega)]
  simp only [hV, hOk, Bool.not_true, Bool.false_eq_true, if_false, if_true]
  rw [preloadPhase_msgIndex]
  rfl

/-- Claim C9 (witness). -/
theorem fillVerbatimWitness :
    envOk.visible = true ∧ envOk.sendOk = true ∧
    initialState.clock + envOk.dt < 60 ∧
    (step msgsSpaces envOk initialState).2
      = Event.sent initialState.msgIndex
          (msgsSpaces.getD initialState.msgIndex []) :=
  ⟨by decide, by decide, by decide,
    (fillVerbatim msgsSpaces envOk initialState
      (by decide) (by decide) (by decide)).1⟩

/-- Claim C10: only a descriptor that ends in `.txt` and names an
existing path enters structured mode; every other descriptor — even one
naming an existing readable file without the suffix — is treated as
inline text, and the corpus is the bulk parse of the descriptor string
itself (the file contents are never read). -/
theorem nonTxtDescriptorBulk (fs : FS) (d : List Nat)
    (h : ¬ (List.isSuffixOf (s2l ".txt") d && fs.pathExists d) = true) :
    parse_messages fs d = Except.ok (bulkParse d) := by
  unfold parse_messages
  rw [if_neg h]

/-- Claim C10 (witness): `corpus.dat` exists and is readable with
contents `X & Y` on `fsAll`, yet the corpus is the bulk parse of the
string `corpus.dat` itself. -/
theorem nonTxtDescriptorBulkWitness :
    ¬ (List.isSuffixOf (s2l ".txt") (s2l "corpus.dat")
        && fsAll.pathExists (s2l "corpus.dat")) = true ∧
    fsAll.readFile (s2l "corpus.dat") = some (s2l "X & Y") ∧
    parse_messages fsAll (s2l "corpus.dat")
      = Except.ok (bulkParse (s2l "corpus.dat")) :=
  ⟨by decide, by decide,
    nonTxtDescriptorBulk fsAll (s2l "corpus.dat") (by decide)⟩
